import Mathlib

/-!
Verification of the veggie-quiz web service (`src/main.py`) against its
natural-language specification.

The service is a FastAPI application whose handlers issue raw SQL against four
tables (`quiz`, `questions`, `users`, `quiz_results`).  We embed the database
as explicit list-valued state (`DB`) and each handler as a pure function from
its request data and the current state to an `Except HTTPError` result plus
the new state.  Conventions of the embedding:

* Timestamps are `Nat` seconds; `CURRENT_TIMESTAMP` / `datetime.utcnow()`
  become an explicit `now` argument; Python `timedelta(days=d)` is
  `timedeltaDays d = d * 86400` seconds.
* `SERIAL` primary keys become `next_*_id` counters in `DB`.
* The `choices` column stores `json.dumps` of a list of strings and is read
  back as JSONB; the JSON round trip is the identity on the list, so the
  column is embedded directly as `List String`.
* Python `int` is `Int` (so `correct_answer_index` may be negative or past
  the end of `choices`, exactly as in the code, which performs no range
  check).  The `score` float is never computed with, only stored and
  returned, so it is carried as an opaque integer scalar.
* A database insert can raise (constraint violation etc.); handlers that
  write take a failure oracle `fail : Nat → Bool` saying whether the k-th
  insert statement of the call raises.
* `ORDER BY RANDOM()` takes a reordering oracle `rand`; theorems assume only
  that it permutes its input.
* A raised `HTTPException(status_code, detail, headers)` is the `HTTPError`
  structure; the only header the code ever sets is `WWW-Authenticate`.
-/

namespace VeggieQuiz

/-- Request model `QuestionBase` (main.py lines 65-72). -/
structure QuestionBase where
  question_text : String
  choices : List String
  correct_answer_index : Int
  explanation : String
  category : String
  difficulty : String
  image : String
deriving DecidableEq

/-- Request model `QuizBase` (main.py lines 74-79). -/
structure QuizBase where
  name : String
  description : String
  image : String
  category : String
  difficulty : String
deriving DecidableEq

/-- Request model `QuizCreate` (main.py lines 81-83). -/
structure QuizCreate where
  quiz : QuizBase
  questions : List QuestionBase
deriving DecidableEq

/-- A row of the `quiz` table. -/
structure Quiz where
  id : Nat
  name : String
  description : String
  image : String
  category : String
  difficulty : String
  created_at : Nat
deriving DecidableEq

/-- A row of the `questions` table. -/
structure Question where
  id : Nat
  quiz_id : Nat
  question_text : String
  choices : List String
  correct_answer_index : Int
  explanation : String
  category : String
  difficulty : String
  image : String
deriving DecidableEq

/-- A row of the `users` table. -/
structure User where
  id : Nat
  email : String
  username : String
  created_at : Nat
  last_login : Option Nat
deriving DecidableEq

/-- A row of the `quiz_results` table. -/
structure QuizResult where
  id : Nat
  user_id : Nat
  quiz_id : Nat
  score : Int
  correct_answers : Int
  total_questions : Int
  created_at : Nat
deriving DecidableEq

/-- Request model `QuizResultCreate` (main.py lines 130-134). -/
structure QuizResultCreate where
  quiz_id : Nat
  score : Int
  correct_answers : Int
  total_questions : Int
deriving DecidableEq

/-- The database state: the four tables plus the serial-id counters. -/
structure DB where
  quizzes : List Quiz
  questions : List Question
  users : List User
  quiz_results : List QuizResult
  next_quiz_id : Nat
  next_question_id : Nat
  next_user_id : Nat
  next_result_id : Nat
deriving DecidableEq

/-- A raised `HTTPException`: status code, detail message, and the optional
`WWW-Authenticate` header value. -/
structure HTTPError where
  status_code : Nat
  detail : String
  www_authenticate : Option String := none
deriving DecidableEq

/-- `timedelta(days=d)` in seconds. -/
def timedeltaDays (d : Nat) : Nat := d * 86400

/-- `ACCESS_TOKEN_EXPIRE_DAYS = 365` (main.py line 58). -/
def ACCESS_TOKEN_EXPIRE_DAYS : Nat := 365

/-- The claim set of a JWT: the `sub` claim (if present) and the `exp`
claim added by `create_access_token`. -/
structure TokenPayload where
  sub : Option String
  exp : Nat
deriving DecidableEq

/-- A bearer token as the verifier sees it: either not a well-formed JWT at
all, or a payload signed with some HS256 key. -/
inductive JWToken where
  | malformed
  | signed (payload : TokenPayload) (key : String)
deriving DecidableEq

/-- `jwt.decode(token, key, algorithms=[ALGORITHM])` at wall-clock time
`now`: it raises `JWTError` (here `none`) when the token is malformed, the
signature does not verify under `key`, or the `exp` claim is in the past. -/
def jwt_decode (tok : JWToken) (key : String) (now : Nat) : Option TokenPayload :=
  match tok with
  | .malformed => none
  | .signed p k =>
    if k = key then (if p.exp < now then none else some p) else none

/-- `create_access_token` (main.py lines 155-163): copies the data (here the
`sub` subject), adds `exp = now + expires_delta` (default 365 days), and
signs with the process secret. -/
def create_access_token (sub : String) (expires_delta : Option Nat) (now : Nat)
    (secret : String) : JWToken :=
  JWToken.signed { sub := some sub, exp := now + expires_delta.getD (timedeltaDays 365) } secret

/-- The 401 raised by `get_current_user` (main.py lines 166-170). -/
def credentials_exception : HTTPError :=
  { status_code := 401, detail := "Could not validate credentials",
    www_authenticate := some "Bearer" }

/-- The response shape of `UserResponse` (main.py lines 117-122). -/
structure UserResponse where
  id : Nat
  email : String
  username : String
  created_at : Nat
  last_login : Option Nat
deriving DecidableEq

/-- `get_current_user` (main.py lines 165-195): decode and validate the
token, extract the `sub` email, resolve the user row by email; any failure
raises `credentials_exception`. -/
def get_current_user (token : JWToken) (secret : String) (now : Nat) (db : DB) :
    Except HTTPError UserResponse :=
  match jwt_decode token secret now with
  | none => .error credentials_exception
  | some payload =>
    match payload.sub with
    | none => .error credentials_exception
    | some email =>
      match db.users.find? (fun u => u.email == email) with
      | none => .error credentials_exception
      | some u =>
        .ok { id := u.id, email := u.email, username := u.username,
              created_at := u.created_at, last_login := u.last_login }

/-- The response of `create_quiz` / `get_quiz` before `response_model`
filtering: the quiz row's columns plus the question rows. -/
structure QuizResponse where
  id : Nat
  name : String
  description : String
  image : String
  category : String
  difficulty : String
  created_at : Nat
  questions : List Question
deriving DecidableEq

/-- The question row built by the `INSERT INTO questions ... RETURNING`
statement of `create_quiz` (main.py lines 246-284). -/
def mkQuestionRow (rowId quizId : Nat) (q : QuestionBase) : Question :=
  { id := rowId, quiz_id := quizId, question_text := q.question_text,
    choices := q.choices, correct_answer_index := q.correct_answer_index,
    explanation := q.explanation, category := q.category,
    difficulty := q.difficulty, image := q.image }

/-- The question-insert loop of `create_quiz` (main.py lines 241-286), run
inside the open transaction.  `k` numbers the insert statements of the call;
`fail k` means the k-th insert raises, which aborts the loop (`none`).  On
success it returns the updated transaction state and the inserted rows in
order. -/
def insertQuestions (qs : List QuestionBase) (quizId k : Nat) (fail : Nat → Bool)
    (db : DB) : Option (DB × List Question) :=
  match qs with
  | [] => some (db, [])
  | q :: rest =>
    if fail k then none
    else
      let row := mkQuestionRow db.next_question_id quizId q
      match insertQuestions rest quizId (k + 1) fail
          { db with questions := db.questions ++ [row],
                    next_question_id := db.next_question_id + 1 } with
      | none => none
      | some (db2, rows) => some (db2, row :: rows)

/-- The quiz row built by the `INSERT INTO quiz ... RETURNING` statement of
`create_quiz` (main.py lines 211-237); `created_at` gets the current time
from the schema default. -/
def quizRowOf (quiz_data : QuizCreate) (now : Nat) (db : DB) : Quiz :=
  { id := db.next_quiz_id, name := quiz_data.quiz.name,
    description := quiz_data.quiz.description, image := quiz_data.quiz.image,
    category := quiz_data.quiz.category, difficulty := quiz_data.quiz.difficulty,
    created_at := now }

/-- A quiz row's columns together with a question list, the common response
shape of `create_quiz` and `get_quiz`. -/
def quizResponseOf (q : Quiz) (rows : List Question) : QuizResponse :=
  { id := q.id, name := q.name, description := q.description, image := q.image,
    category := q.category, difficulty := q.difficulty,
    created_at := q.created_at, questions := rows }

/-- `create_quiz` (main.py lines 202-309): inside one transaction, insert the
quiz row (insert number 0), then one question row per input question (insert
numbers 1..N); on any raise roll the transaction back (the state reverts to
`db`) and surface HTTP 500; on success commit and return the quiz with its
questions. -/
def create_quiz (quiz_data : QuizCreate) (now : Nat) (fail : Nat → Bool) (db : DB) :
    Except HTTPError QuizResponse × DB :=
  if fail 0 then
    (.error { status_code := 500, detail := "Database error creating quiz" }, db)
  else
    let quiz_row := quizRowOf quiz_data now db
    let db1 : DB :=
      { db with quizzes := db.quizzes ++ [quiz_row],
                next_quiz_id := db.next_quiz_id + 1 }
    match insertQuestions quiz_data.questions quiz_row.id 1 fail db1 with
    | none => (.error { status_code := 500, detail := "Database error creating quiz" }, db)
    | some (db2, rows) => (.ok (quizResponseOf quiz_row rows), db2)

/-- `get_quiz` (main.py lines 311-369): look the quiz row up by id (404 when
absent) and attach the question rows with that `quiz_id`, in stored order. -/
def get_quiz (quiz_id : Nat) (db : DB) : Except HTTPError QuizResponse :=
  match db.quizzes.find? (fun q => q.id == quiz_id) with
  | none => .error { status_code := 404, detail := "Quiz not found" }
  | some q => .ok (quizResponseOf q (db.questions.filter (fun r => r.quiz_id == quiz_id)))

/-- Modelled from the spec: the database schema is not part of the
repository (only `main.py` is), and the `ON DELETE CASCADE` from
`questions.quiz_id` to `quiz.id` lives in that schema.  Spec 4.3: "deletion
of the quiz row cascades to delete all owned question rows"; the handler's
own comment says "cascade will handle questions".  Deleting the quiz row
with id `quiz_id` therefore removes every question row owned by it. -/
def cascade_delete_questions (quiz_id : Nat) (questions : List Question) : List Question :=
  questions.filter (fun r => !(r.quiz_id == quiz_id))

/-- `delete_quiz` (main.py lines 371-395): run the `DELETE FROM quiz` (the
schema cascade removes the owned questions), commit, then raise 404 when the
delete matched no row. -/
def delete_quiz (quiz_id : Nat) (db : DB) : Except HTTPError String × DB :=
  let rowcount := (db.quizzes.filter (fun q => q.id == quiz_id)).length
  let db' : DB :=
    { db with quizzes := db.quizzes.filter (fun q => !(q.id == quiz_id)),
              questions := if rowcount = 0 then db.questions
                           else cascade_delete_questions quiz_id db.questions }
  if rowcount = 0 then
    (.error { status_code := 404, detail := "Quiz not found" }, db')
  else
    (.ok "Quiz deleted successfully", db')

/-- The dictionary `create_user` returns (main.py lines 511-519): the new
user row's columns plus the freshly created access token. -/
structure UserCreateReturn where
  id : Nat
  email : String
  username : String
  created_at : Nat
  last_login : Option Nat
  access_token : JWToken
  token_type : String
deriving DecidableEq

/-- `create_user` (main.py lines 481-529): one existence check covering both
email and username (400 conflict when it hits), then insert the user row
(the schema defaults give `created_at` the current time and `last_login`
NULL) and issue a token for the new email with the 365-day window. -/
def create_user (email username : String) (now : Nat) (secret : String) (db : DB) :
    Except HTTPError UserCreateReturn × DB :=
  match db.users.find? (fun u => u.email == email || u.username == username) with
  | some _ =>
    (.error { status_code := 400, detail := "Email or username already registered" }, db)
  | none =>
    let new_user : User :=
      { id := db.next_user_id, email := email, username := username,
        created_at := now, last_login := none }
    let db' : DB :=
      { db with users := db.users ++ [new_user],
                next_user_id := db.next_user_id + 1 }
    let access_token :=
      create_access_token new_user.email (some (timedeltaDays ACCESS_TOKEN_EXPIRE_DAYS))
        now secret
    (.ok { id := new_user.id, email := new_user.email, username := new_user.username,
           created_at := new_user.created_at, last_login := new_user.last_login,
           access_token := access_token, token_type := "bearer" }, db')

/-- FastAPI serializes `create_user`'s return through
`response_model=UserResponse` (main.py line 481): only the fields declared
on `UserResponse` reach the HTTP body. -/
def user_response_fields (d : UserCreateReturn) : UserResponse :=
  { id := d.id, email := d.email, username := d.username,
    created_at := d.created_at, last_login := d.last_login }

/-- The `POST /users` endpoint as the HTTP caller sees it: the handler's
return value filtered through the declared response model. -/
def create_user_http (email username : String) (now : Nat) (secret : String) (db : DB) :
    Except HTTPError UserResponse × DB :=
  match create_user email username now secret db with
  | (.ok d, db') => (.ok (user_response_fields d), db')
  | (.error e, db') => (.error e, db')

/-- The `Token` response model (main.py lines 106-108). -/
structure TokenOut where
  access_token : JWToken
  token_type : String
deriving DecidableEq

/-- `login_for_access_token` (main.py lines 531-574): look the user up by
email (401 with a `WWW-Authenticate: Bearer` challenge when absent), set the
user's `last_login` to the current time, and issue a token for the stored
email with the 365-day window. -/
def login_for_access_token (email : String) (now : Nat) (secret : String) (db : DB) :
    Except HTTPError TokenOut × DB :=
  match db.users.find? (fun u => u.email == email) with
  | none =>
    (.error { status_code := 401, detail := "Email not found",
              www_authenticate := some "Bearer" }, db)
  | some user =>
    let db' : DB :=
      { db with users := db.users.map (fun v =>
          if v.id == user.id then { v with last_login := some now } else v) }
    let access_token :=
      create_access_token user.email (some (timedeltaDays ACCESS_TOKEN_EXPIRE_DAYS))
        now secret
    (.ok { access_token := access_token, token_type := "bearer" }, db')

/-- `save_quiz_result` (main.py lines 631-705): 404 when the quiz id does
not exist; 400 conflict when this user already has a result for this quiz;
otherwise insert and return the new result row. -/
def save_quiz_result (result : QuizResultCreate) (current_user_id now : Nat) (db : DB) :
    Except HTTPError QuizResult × DB :=
  match db.quizzes.find? (fun q => q.id == result.quiz_id) with
  | none => (.error { status_code := 404, detail := "Quiz not found" }, db)
  | some _ =>
    match db.quiz_results.find? (fun x =>
        x.user_id == current_user_id && x.quiz_id == result.quiz_id) with
    | some _ =>
      (.error { status_code := 400, detail := "You have already completed this quiz" }, db)
    | none =>
      let new_result : QuizResult :=
        { id := db.next_result_id, user_id := current_user_id,
          quiz_id := result.quiz_id, score := result.score,
          correct_answers := result.correct_answers,
          total_questions := result.total_questions, created_at := now }
      (.ok new_result,
       { db with quiz_results := db.quiz_results ++ [new_result],
                 next_result_id := db.next_result_id + 1 })

/-- At most one `quiz_results` row per (user, quiz) pair. -/
def atMostOnePerPair (l : List QuizResult) : Prop :=
  l.Pairwise (fun a b => a.user_id ≠ b.user_id ∨ a.quiz_id ≠ b.quiz_id)

/-- A segment of a route path: a literal, or a `{name}` parameter (default
`str` converter: matches any nonempty segment without a slash). -/
inductive PathSeg where
  | lit (s : String)
  | param (name : String)
deriving DecidableEq

/-- One registered route: HTTP method, path pattern, handler name. -/
structure Route where
  method : String
  path : List PathSeg
  handler : String
deriving DecidableEq

def segMatches : PathSeg → String → Bool
  | .lit s, t => s == t
  | .param _, t => t != ""

def pathMatches : List PathSeg → List String → Bool
  | [], [] => true
  | p :: ps, t :: ts => segMatches p t && pathMatches ps ts
  | _, _ => false

/-- The routes of `main.py` in decorator execution order, i.e. the order the
handlers appear in the file (lines 197, 202, 311, 371, 397, 455, 481, 531,
576, 580, 613, 631, 707, 743). -/
def routeTable : List Route :=
  [ { method := "GET", path := [], handler := "root" },
    { method := "POST", path := [.lit "quizzes"], handler := "create_quiz" },
    { method := "GET", path := [.lit "quizzes", .param "quiz_id"], handler := "get_quiz" },
    { method := "DELETE", path := [.lit "quizzes", .param "quiz_id"], handler := "delete_quiz" },
    { method := "GET", path := [.lit "quizzes"], handler := "get_all_quizzes" },
    { method := "GET", path := [.lit "users"], handler := "get_users" },
    { method := "POST", path := [.lit "users"], handler := "create_user" },
    { method := "POST", path := [.lit "token"], handler := "login_for_access_token" },
    { method := "GET", path := [.lit "users", .lit "me"], handler := "read_users_me" },
    { method := "DELETE", path := [.lit "users", .lit "me"], handler := "delete_user" },
    { method := "GET", path := [.lit "quiz-categories"], handler := "get_quiz_categories" },
    { method := "POST", path := [.lit "quiz-results"], handler := "save_quiz_result" },
    { method := "GET", path := [.lit "quiz-results"], handler := "get_user_quiz_results" },
    { method := "GET", path := [.lit "quizzes", .lit "random-by-category"],
      handler := "get_random_quizzes_by_category" } ]

/-- Starlette dispatch: the first registered route whose method and path
pattern match handles the request (path-parameter type conversion happens
after dispatch, inside the matched route). -/
def matchRoute (routes : List Route) (method : String) (segs : List String) :
    Option String :=
  match routes.find? (fun r => r.method == method && pathMatches r.path segs) with
  | some r => some r.handler
  | none => none

/-- The int converter applied by `get_quiz` to its `quiz_id` path parameter
after dispatch; `none` means a 422 validation rejection. -/
def parseQuizId (seg : String) : Option Nat :=
  if seg.data ≠ [] ∧ seg.data.all (fun c => c.isDigit) then
    some (seg.data.foldl (fun n c => n * 10 + (c.toNat - 48)) 0)
  else none

/-- The per-category response entry of `get_random_quizzes_by_category`. -/
structure CategoryQuizzes where
  category : String
  quizzes : List QuizResponse
deriving DecidableEq

/-- A quiz row with its aggregated question rows, as built by the
`json_agg`/`LEFT JOIN` query (a quiz with no questions gets `[]`). -/
def quizWithQuestions (db : DB) (q : Quiz) : QuizResponse :=
  quizResponseOf q (db.questions.filter (fun r => r.quiz_id == q.id))

/-- `SELECT DISTINCT category FROM quiz` (the `ORDER BY category` only fixes
the presentation order of the categories). -/
def distinctCategories (db : DB) : List String :=
  (db.quizzes.map (fun q => q.category)).dedup

/-- The body of the per-category loop of `get_random_quizzes_by_category`
(main.py lines 755-800): reorder the category's quizzes by `RANDOM()`
(oracle `rand`), keep at most 3 (`LIMIT 3`), attach each quiz's questions,
and only emit the category when the list is nonempty. -/
def categoryEntry (rand : String → List Quiz → List Quiz) (db : DB)
    (category : String) : Option CategoryQuizzes :=
  let quizzes :=
    ((rand category (db.quizzes.filter (fun q => q.category == category))).take 3).map
      (quizWithQuestions db)
  if quizzes.isEmpty then none else some { category := category, quizzes := quizzes }

/-- `get_random_quizzes_by_category` (main.py lines 743-802). -/
def get_random_quizzes_by_category (rand : String → List Quiz → List Quiz) (db : DB) :
    List CategoryQuizzes :=
  (distinctCategories db).filterMap (categoryEntry rand db)

/-! ## Concrete fixtures used by the witnesses -/

/-- A fresh database. -/
def dbEmpty : DB :=
  { quizzes := [], questions := [], users := [], quiz_results := [],
    next_quiz_id := 1, next_question_id := 1, next_user_id := 1, next_result_id := 1 }

/-- A one-question creation request whose `correct_answer_index` (5) lies
outside its two-element `choices` list. -/
def qdW : QuizCreate :=
  { quiz := { name := "n", description := "d", image := "i", category := "c",
              difficulty := "e" },
    questions := [{ question_text := "q1", choices := ["a", "b"],
                    correct_answer_index := 5, explanation := "x", category := "c",
                    difficulty := "e", image := "i" }] }

/-- The response `create_quiz qdW 7 (fun _ => false) dbEmpty` returns. -/
def respW : QuizResponse :=
  { id := 1, name := "n", description := "d", image := "i", category := "c",
    difficulty := "e", created_at := 7,
    questions := [{ id := 1, quiz_id := 1, question_text := "q1",
                    choices := ["a", "b"], correct_answer_index := 5,
                    explanation := "x", category := "c", difficulty := "e",
                    image := "i" }] }

/-- The state `create_quiz qdW 7 (fun _ => false) dbEmpty` leaves behind. -/
def db2W : DB :=
  { quizzes := [{ id := 1, name := "n", description := "d", image := "i",
                  category := "c", difficulty := "e", created_at := 7 }],
    questions := [{ id := 1, quiz_id := 1, question_text := "q1",
                    choices := ["a", "b"], correct_answer_index := 5,
                    explanation := "x", category := "c", difficulty := "e",
                    image := "i" }],
    users := [], quiz_results := [],
    next_quiz_id := 2, next_question_id := 2, next_user_id := 1, next_result_id := 1 }

/-! ## Remaining fixtures -/

/-- A registered user. -/
def userW : User :=
  { id := 1, email := "a@b", username := "u1", created_at := 0, last_login := none }

/-- A database holding only `userW`. -/
def dbUsersW : DB := { dbEmpty with users := [userW] }

/-- A result-recording request for quiz 1. -/
def resultW : QuizResultCreate :=
  { quiz_id := 1, score := 80, correct_answers := 4, total_questions := 5 }

/-- The category entry the random-by-category operation produces on `db2W`
with the identity reordering. -/
def entryW : CategoryQuizzes := { category := "c", quizzes := [respW] }

/-- A concrete `create_user` return value, used to instantiate the
token-independence conjunct of the response-model theorem. -/
def userCreateReturnW : UserCreateReturn :=
  { id := 1, email := "a@b", username := "u1", created_at := 3, last_login := none,
    access_token := JWToken.malformed, token_type := "bearer" }

/-! ## Helper lemmas -/

theorem insertQuestions_eq_some :
    ∀ (qs : List QuestionBase) (quizId k : Nat) (fail : Nat → Bool) (db db2 : DB)
      (rows : List Question),
      insertQuestions qs quizId k fail db = some (db2, rows) →
      db2.quizzes = db.quizzes ∧ db2.questions = db.questions ++ rows ∧
      db2.users = db.users ∧ db2.quiz_results = db.quiz_results ∧
      rows.length = qs.length ∧ (∀ r ∈ rows, r.quiz_id = quizId) ∧
      rows.map (fun r => r.correct_answer_index) =
        qs.map (fun q => q.correct_answer_index) ∧
      rows.map (fun r => r.question_text) = qs.map (fun q => q.question_text)
  | [], quizId, k, fail, db, db2, rows, h => by
    simp only [insertQuestions, Option.some.injEq, Prod.mk.injEq] at h
    obtain ⟨h1, h2⟩ := h
    subst h1; subst h2
    simp
  | q :: rest, quizId, k, fail, db, db2, rows, h => by
    rw [insertQuestions] at h
    by_cases hf : fail k
    · simp [hf] at h
    · simp only [hf, if_false, Bool.false_eq_true] at h
      rcases hrec : insertQuestions rest quizId (k + 1) fail
          { db with questions := db.questions ++ [mkQuestionRow db.next_question_id quizId q],
                    next_question_id := db.next_question_id + 1 } with _ | ⟨db3, rows'⟩
      · rw [hrec] at h; exact absurd h (by simp)
      · rw [hrec] at h
        simp only [Option.some.injEq, Prod.mk.injEq] at h
        obtain ⟨hdb, hrows⟩ := h
        subst hdb; subst hrows
        obtain ⟨e1, e2, e3, e4, e5, e6, e7, e8⟩ :=
          insertQuestions_eq_some rest quizId (k + 1) fail _ _ _ hrec
        refine ⟨e1, ?_, e3, e4, ?_, ?_, ?_, ?_⟩
        · rw [e2, List.append_assoc, List.singleton_append]
        · simp [e5]
        · intro r hr
          rcases List.mem_cons.mp hr with h | h
          · subst h; rfl
          · exact e6 r h
        · simp [e7, mkQuestionRow]
        · simp [e8, mkQuestionRow]

theorem insertQuestions_no_fail_isSome :
    ∀ (qs : List QuestionBase) (quizId k : Nat) (db : DB),
      (insertQuestions qs quizId k (fun _ => false) db).isSome
  | [], quizId, k, db => by simp [insertQuestions]
  | q :: rest, quizId, k, db => by
    rw [insertQuestions]
    rcases hrec : insertQuestions rest quizId (k + 1) (fun _ => false)
        { db with questions := db.questions ++ [mkQuestionRow db.next_question_id quizId q],
                  next_question_id := db.next_question_id + 1 } with _ | ⟨db3, rows'⟩
    · have := insertQuestions_no_fail_isSome rest quizId (k + 1)
        { db with questions := db.questions ++ [mkQuestionRow db.next_question_id quizId q],
                  next_question_id := db.next_question_id + 1 }
      rw [hrec] at this; simp at this
    · simp [hrec]

/-- Case analysis on a `create_quiz` call: it either fails, leaving the
state untouched and returning the 500, or succeeds with the inserted quiz
row and question rows. -/
theorem create_quiz_shape (quiz_data : QuizCreate) (now : Nat) (fail : Nat → Bool) (db : DB) :
    create_quiz quiz_data now fail db =
      (.error { status_code := 500, detail := "Database error creating quiz" }, db) ∨
    ∃ db2 rows,
      insertQuestions quiz_data.questions db.next_quiz_id 1 fail
        { db with quizzes := db.quizzes ++ [quizRowOf quiz_data now db],
                  next_quiz_id := db.next_quiz_id + 1 } = some (db2, rows) ∧
      create_quiz quiz_data now fail db =
        (.ok (quizResponseOf (quizRowOf quiz_data now db) rows), db2) := by
  rw [create_quiz]
  by_cases h0 : fail 0
  · simp [h0]
  · simp only [h0, if_false, Bool.false_eq_true]
    rcases hins : insertQuestions quiz_data.questions (quizRowOf quiz_data now db).id 1 fail
        { db with quizzes := db.quizzes ++ [quizRowOf quiz_data now db],
                  next_quiz_id := db.next_quiz_id + 1 } with _ | ⟨db2, rows⟩
    · exact Or.inl rfl
    · exact Or.inr ⟨db2, rows, hins, rfl⟩

/-! ## Claims -/

/-- C1: Quiz creation is atomic: either the quiz row and all N question
rows are committed, or the state is exactly the pre-call state — in
particular a failure of any single insert (the quiz insert or any question
insert, the last one included) undoes every row inserted in the same call —
and on failure the caller receives the generic HTTP 500. -/
theorem create_quiz_atomic (quiz_data : QuizCreate) (now : Nat) (fail : Nat → Bool)
    (db : DB) :
    (∀ e, (create_quiz quiz_data now fail db).1 = .error e →
      (create_quiz quiz_data now fail db).2 = db ∧ e.status_code = 500) ∧
    (∀ resp, (create_quiz quiz_data now fail db).1 = .ok resp →
      (create_quiz quiz_data now fail db).2.quizzes =
        db.quizzes ++ [quizRowOf quiz_data now db] ∧
      (create_quiz quiz_data now fail db).2.questions = db.questions ++ resp.questions ∧
      resp.questions.length = quiz_data.questions.length) := by
  rcases create_quiz_shape quiz_data now fail db with h | ⟨db2, rows, hins, h⟩
  · constructor
    · intro e he
      rw [h] at he ⊢
      simp only at he
      cases he
      exact ⟨rfl, rfl⟩
    · intro resp hresp
      rw [h] at hresp
      simp at hresp
  · obtain ⟨e1, e2, _, _, e5, _, _, _⟩ := insertQuestions_eq_some _ _ _ _ _ _ _ hins
    constructor
    · intro e he
      rw [h] at he
      simp at he
    · intro resp hresp
      rw [h] at hresp ⊢
      simp only at hresp
      cases hresp
      refine ⟨?_, ?_, ?_⟩
      · simpa using e1
      · simpa [quizResponseOf] using e2
      · simpa [quizResponseOf] using e5

/-- Witness for C1: with one question and an oracle that fails exactly the
last question insert (insert number 1), the call leaves the fresh database
unchanged and reports status 500. -/
theorem create_quiz_atomic_witness :
    (create_quiz qdW 7 (fun k => k == 1) dbEmpty).2 = dbEmpty ∧
    HTTPError.status_code
      { status_code := 500, detail := "Database error creating quiz" } = 500 := by
  have h := (create_quiz_atomic qdW 7 (fun k => k == 1) dbEmpty).1
    { status_code := 500, detail := "Database error creating quiz" } rfl
  exact h

/-- C2: creating a quiz and fetching the returned id round-trips: the fetch
returns the creation response itself — in particular exactly the N submitted
questions, in insertion order, with each `correct_answer_index` preserved
exactly as submitted; and (final conjunct) when no insert raises, creation
accepts every request, with no server-side rejection or range check of
`correct_answer_index` against `choices`. -/
theorem create_then_get_round_trip (quiz_data : QuizCreate) (now : Nat)
    (fail : Nat → Bool) (db : DB) (resp : QuizResponse) (db2 : DB)
    (hq : ∀ q ∈ db.quizzes, q.id < db.next_quiz_id)
    (hfk : ∀ r ∈ db.questions, ∃ q ∈ db.quizzes, r.quiz_id = q.id)
    (h : create_quiz quiz_data now fail db = (.ok resp, db2)) :
    get_quiz resp.id db2 = .ok resp ∧
    resp.questions.length = quiz_data.questions.length ∧
    resp.questions.map (fun r => r.correct_answer_index) =
      quiz_data.questions.map (fun q => q.correct_answer_index) ∧
    resp.questions.map (fun r => r.question_text) =
      quiz_data.questions.map (fun q => q.question_text) ∧
    ∃ resp2 db3, create_quiz quiz_data now (fun _ => false) db = (.ok resp2, db3) := by
  rcases create_quiz_shape quiz_data now fail db with hsh | ⟨dbS, rowsS, hins, hsh⟩
  · rw [h] at hsh; simp at hsh
  · rw [h] at hsh
    simp only [Prod.mk.injEq, Except.ok.injEq] at hsh
    obtain ⟨hresp, hdb2⟩ := hsh
    subst hresp
    subst hdb2
    obtain ⟨e1, e2, _, _, e5, e6, e7, e8⟩ := insertQuestions_eq_some _ _ _ _ _ _ _ hins
    simp only at e1 e2
    have hid : (quizResponseOf (quizRowOf quiz_data now db) rowsS).id = db.next_quiz_id := rfl
    have hfind : db2.quizzes.find? (fun q => q.id == db.next_quiz_id) =
        some (quizRowOf quiz_data now db) := by
      rw [e1]
      rw [List.find?_append]
      have hnone : db.quizzes.find? (fun q => q.id == db.next_quiz_id) = none := by
        rw [List.find?_eq_none]
        intro q hqmem
        simpa using Nat.ne_of_lt (hq q hqmem)
      rw [hnone]
      simp [quizRowOf]
    have hfilter : db2.questions.filter (fun r => r.quiz_id == db.next_quiz_id) = rowsS := by
      rw [e2]
      rw [List.filter_append]
      have h1 : db.questions.filter (fun r => r.quiz_id == db.next_quiz_id) = [] := by
        rw [List.filter_eq_nil_iff]
        intro r hr
        obtain ⟨q, hqmem, hq_eq⟩ := hfk r hr
        simp only [beq_iff_eq]
        rw [hq_eq]
        exact Nat.ne_of_lt (hq q hqmem)
      have h2 : rowsS.filter (fun r => r.quiz_id == db.next_quiz_id) = rowsS := by
        rw [List.filter_eq_self]
        intro r hr
        simpa using e6 r hr
      rw [h1, h2, List.nil_append]
    refine ⟨?_, by simpa [quizResponseOf] using e5,
        by simpa [quizResponseOf] using e7, by simpa [quizResponseOf] using e8, ?_⟩
    · rw [hid]
      rw [get_quiz, hfind, hfilter]
    · rcases create_quiz_shape quiz_data now (fun _ => false) db with hsh0 | ⟨db3, rows0, _, hsh0⟩
      · exfalso
        rw [create_quiz] at hsh0
        simp only [if_false, Bool.false_eq_true] at hsh0
        have := insertQuestions_no_fail_isSome quiz_data.questions
          (quizRowOf quiz_data now db).id 1
          { db with quizzes := db.quizzes ++ [quizRowOf quiz_data now db],
                    next_quiz_id := db.next_quiz_id + 1 }
        rcases hs : insertQuestions quiz_data.questions (quizRowOf quiz_data now db).id 1
            (fun _ => false)
            { db with quizzes := db.quizzes ++ [quizRowOf quiz_data now db],
                      next_quiz_id := db.next_quiz_id + 1 } with _ | ⟨dbx, rowsx⟩
        · rw [hs] at this; simp at this
        · rw [hs] at hsh0; simp at hsh0
      · exact ⟨_, _, hsh0⟩

/-- C3 is refuted: dispatch in declaration order sends the request to the
earlier `/quizzes/quiz_id-parameter` route.  This theorem evaluates the
route table at the concrete request `GET /quizzes/random-by-category`: the
matched handler is `get_quiz`, not `get_random_quizzes_by_category` (whose
registration at line 743 comes after `get_quiz` at line 311), and the
subsequent int conversion of the captured path parameter fails (a 422). -/
theorem random_by_category_route_shadowed :
    matchRoute routeTable "GET" ["quizzes", "random-by-category"] = some "get_quiz" ∧
    matchRoute routeTable "GET" ["quizzes", "random-by-category"] ≠
      some "get_random_quizzes_by_category" ∧
    parseQuizId "random-by-category" = none := by
  refine ⟨by decide, by decide, by decide⟩

theorem get_current_user_error_eq (token : JWToken) (secret : String) (now : Nat)
    (db : DB) :
    ∀ e, get_current_user token secret now db = .error e → e = credentials_exception := by
  intro e he
  unfold get_current_user at he
  split at he
  · injection he with h; exact h.symm
  · split at he
    · injection he with h; exact h.symm
    · split at he
      · injection he with h; exact h.symm
      · simp at he

theorem get_current_user_ok_iff (token : JWToken) (secret : String) (now : Nat)
    (db : DB) :
    (∃ r, get_current_user token secret now db = .ok r) ↔
      ∃ payload email u, token = JWToken.signed payload secret ∧ now ≤ payload.exp ∧
        payload.sub = some email ∧
        db.users.find? (fun v => v.email == email) = some u := by
  constructor
  · intro ⟨r, hr⟩
    cases token with
    | malformed => unfold get_current_user jwt_decode at hr; simp at hr
    | signed p k =>
      unfold get_current_user jwt_decode at hr
      simp only at hr
      by_cases hk : k = secret
      · rw [if_pos hk] at hr
        by_cases hexp : p.exp < now
        · rw [if_pos hexp] at hr; simp at hr
        · rw [if_neg hexp] at hr
          simp only at hr
          cases hsub : p.sub with
          | none => rw [hsub] at hr; simp at hr
          | some email =>
            rw [hsub] at hr
            simp only at hr
            cases hfind : db.users.find? (fun v => v.email == email) with
            | none => rw [hfind] at hr; simp at hr
            | some u =>
              exact ⟨p, email, u, by rw [hk], Nat.le_of_not_lt hexp, hsub, hfind⟩
      · rw [if_neg hk] at hr; simp at hr
  · intro ⟨payload, email, u, htok, hle, hsub, hfind⟩
    subst htok
    refine ⟨{ id := u.id, email := u.email, username := u.username,
              created_at := u.created_at, last_login := u.last_login }, ?_⟩
    unfold get_current_user
    rw [show jwt_decode (JWToken.signed payload secret) secret now = some payload from by
      unfold jwt_decode; simp only [if_true]; rw [if_neg (Nat.not_lt.mpr hle)]]
    simp only
    rw [hsub]
    simp only
    rw [hfind]

/-- C4: token verification succeeds exactly when the signature is valid
under the process secret, the token is unexpired, and the subject email
resolves to an existing user; every rejection (malformed, bad signature,
expired, missing subject, unknown subject) is the 401
`credentials_exception`; and a token issued at `T` with the fixed 365-day
window is accepted at `T + 364` days and rejected at `T + 366` days. -/
theorem get_current_user_spec (token : JWToken) (secret : String) (now : Nat) (db : DB) :
    ((∃ r, get_current_user token secret now db = .ok r) ↔
      ∃ payload email u, token = JWToken.signed payload secret ∧ now ≤ payload.exp ∧
        payload.sub = some email ∧
        db.users.find? (fun v => v.email == email) = some u) ∧
    (∀ e, get_current_user token secret now db = .error e → e = credentials_exception) ∧
    (∀ email T u, db.users.find? (fun v => v.email == email) = some u →
      (∃ r, get_current_user
          (create_access_token email (some (timedeltaDays ACCESS_TOKEN_EXPIRE_DAYS)) T secret)
          secret (T + timedeltaDays 364) db = .ok r) ∧
      get_current_user
          (create_access_token email (some (timedeltaDays ACCESS_TOKEN_EXPIRE_DAYS)) T secret)
          secret (T + timedeltaDays 366) db = .error credentials_exception) := by
  refine ⟨get_current_user_ok_iff token secret now db,
          get_current_user_error_eq token secret now db, ?_⟩
  intro email T u hfind
  have htok : create_access_token email (some (timedeltaDays ACCESS_TOKEN_EXPIRE_DAYS)) T secret =
      JWToken.signed { sub := some email, exp := T + timedeltaDays 365 } secret := rfl
  constructor
  · rw [htok]
    refine (get_current_user_ok_iff _ secret _ db).mpr ?_
    refine ⟨{ sub := some email, exp := T + timedeltaDays 365 }, email, u, rfl, ?_, rfl, hfind⟩
    simp only [timedeltaDays]
    omega
  · rw [htok]
    unfold get_current_user jwt_decode
    simp only [if_true]
    rw [if_pos (show T + timedeltaDays 365 < T + timedeltaDays 366 from by
      simp only [timedeltaDays]; omega)]

theorem find?_email_map_update (l : List User) (email : String) (uid now : Nat) :
    (l.map (fun v => if v.id == uid then { v with last_login := some now } else v)).find?
        (fun v => v.email == email) =
      (l.find? (fun v => v.email == email)).map
        (fun v => if v.id == uid then { v with last_login := some now } else v) := by
  rw [List.find?_map]
  have hpf : ((fun v : User => v.email == email) ∘ fun v =>
      if v.id == uid then { v with last_login := some now } else v) =
      (fun v : User => v.email == email) := by
    funext v
    by_cases h : v.id = uid <;> simp [h]
  rw [hpf]

/-- C5: login with an unknown email is the 401 with the Bearer challenge and
leaves the state unchanged; login with a registered email always succeeds —
no password or secret is involved anywhere in the operation — sets that
user's `last_login` to the current time, and returns a freshly signed token
bound to that email with the fixed 365-day window. -/
theorem login_for_access_token_spec (email : String) (now : Nat) (secret : String)
    (db : DB) :
    (db.users.find? (fun u => u.email == email) = none →
      login_for_access_token email now secret db =
        (.error { status_code := 401, detail := "Email not found",
                  www_authenticate := some "Bearer" }, db)) ∧
    (∀ u, db.users.find? (fun v => v.email == email) = some u →
      u.email = email ∧
      (login_for_access_token email now secret db).1 =
        .ok { access_token := JWToken.signed
                { sub := some email, exp := now + timedeltaDays 365 } secret,
              token_type := "bearer" } ∧
      (login_for_access_token email now secret db).2.users.find?
          (fun v => v.email == email) = some { u with last_login := some now }) := by
  constructor
  · intro hnone
    unfold login_for_access_token
    rw [hnone]
  · intro u hu
    have hemail : u.email = email := by
      have := List.find?_some hu
      simpa using this
    have hlogin : login_for_access_token email now secret db =
        (.ok { access_token := create_access_token u.email
                 (some (timedeltaDays ACCESS_TOKEN_EXPIRE_DAYS)) now secret,
               token_type := "bearer" },
         { db with users := db.users.map (fun v =>
             if v.id == u.id then { v with last_login := some now } else v) }) := by
      unfold login_for_access_token
      rw [hu]
    refine ⟨hemail, ?_, ?_⟩
    · rw [hlogin, hemail]
      rfl
    · rw [hlogin]
      show (db.users.map (fun v =>
          if v.id == u.id then { v with last_login := some now } else v)).find?
          (fun v => v.email == email) = some { u with last_login := some now }
      rw [find?_email_map_update, hu]
      show some (if u.id == u.id then { u with last_login := some now } else u) =
        some { u with last_login := some now }
      rw [if_pos (by simp)]

/-- The non-conflicting branch of `create_user`: insert the row and return
it together with the fresh token. -/
theorem create_user_insert_eq (email username : String) (now : Nat) (secret : String)
    (db : DB) (h : ∀ u ∈ db.users, u.email ≠ email ∧ u.username ≠ username) :
    create_user email username now secret db =
      (.ok { id := db.next_user_id, email := email, username := username,
             created_at := now, last_login := none,
             access_token := JWToken.signed
               { sub := some email, exp := now + timedeltaDays 365 } secret,
             token_type := "bearer" },
       { db with
         users := db.users ++
           [{ id := db.next_user_id, email := email, username := username,
              created_at := now, last_login := none }],
         next_user_id := db.next_user_id + 1 }) := by
  have hnone : db.users.find? (fun u => u.email == email || u.username == username) = none := by
    rw [List.find?_eq_none]
    intro u hu
    simp only [Bool.or_eq_true, beq_iff_eq]
    rintro (hc | hc)
    · exact (h u hu).1 hc
    · exact (h u hu).2 hc
  unfold create_user
  rw [hnone]
  rfl

/-- C6: registration rejects with the 400 conflict, inserting nothing, when
any existing user already has the email or the username (one existence
check covers both fields); otherwise it inserts the user and issues a token
bound to the new email with the fixed 365-day window. -/
theorem create_user_spec (email username : String) (now : Nat) (secret : String)
    (db : DB) :
    ((∃ u ∈ db.users, u.email = email ∨ u.username = username) →
      create_user email username now secret db =
        (.error { status_code := 400,
                  detail := "Email or username already registered" }, db)) ∧
    ((∀ u ∈ db.users, u.email ≠ email ∧ u.username ≠ username) →
      create_user email username now secret db =
        (.ok { id := db.next_user_id, email := email, username := username,
               created_at := now, last_login := none,
               access_token := JWToken.signed
                 { sub := some email, exp := now + timedeltaDays 365 } secret,
               token_type := "bearer" },
         { db with
           users := db.users ++
             [{ id := db.next_user_id, email := email, username := username,
                created_at := now, last_login := none }],
           next_user_id := db.next_user_id + 1 })) := by
  constructor
  · intro ⟨u, hu, hor⟩
    have hs : (db.users.find? (fun v => v.email == email || v.username == username)).isSome := by
      rw [List.find?_isSome]
      exact ⟨u, hu, by rcases hor with h | h <;> simp [h]⟩
    rcases hf : db.users.find? (fun v => v.email == email || v.username == username) with _ | v
    · rw [hf] at hs; simp at hs
    · unfold create_user
      rw [hf]
  · exact create_user_insert_eq email username now secret db

/-- C10: a successful registration's HTTP body is exactly the declared
`UserResponse` fields — id, email, username, created_at, last_login — of
the new user; the `response_model` filtering drops everything else, so the
body is independent of the access token the handler also computed. -/
theorem create_user_response_model (email username : String) (now : Nat)
    (secret : String) (db : DB) :
    ((∀ u ∈ db.users, u.email ≠ email ∧ u.username ≠ username) →
      (create_user_http email username now secret db).1 =
        .ok { id := db.next_user_id, email := email, username := username,
              created_at := now, last_login := none }) ∧
    (∀ d, (create_user email username now secret db).1 = .ok d →
      (create_user_http email username now secret db).1 = .ok (user_response_fields d)) ∧
    (∀ d t, user_response_fields { d with access_token := t } = user_response_fields d) := by
  refine ⟨?_, ?_, fun d t => rfl⟩
  · intro h
    unfold create_user_http
    rw [create_user_insert_eq email username now secret db h]
    rfl
  · intro d hd
    unfold create_user_http
    rcases hc : create_user email username now secret db with ⟨res, db'⟩
    rw [hc] at hd
    simp only at hd
    cases res with
    | error e => simp at hd
    | ok v =>
      injection hd with hd
      subst hd
      rfl

/-- C7: recording a result for an authenticated user is 404 when the quiz
id does not exist, 400 conflict when a result for this (user, quiz) pair
already exists — leaving the state, hence the existing result, unchanged —
and otherwise inserts exactly one new row and returns it with its assigned
id and timestamp; the at-most-one-result-per-pair invariant is preserved by
every call. -/
theorem save_quiz_result_spec (result : QuizResultCreate) (uid now : Nat) (db : DB) :
    ((∀ q ∈ db.quizzes, q.id ≠ result.quiz_id) →
      save_quiz_result result uid now db =
        (.error { status_code := 404, detail := "Quiz not found" }, db)) ∧
    ((∃ q ∈ db.quizzes, q.id = result.quiz_id) →
      ((∃ x ∈ db.quiz_results, x.user_id = uid ∧ x.quiz_id = result.quiz_id) →
        save_quiz_result result uid now db =
          (.error { status_code := 400,
                    detail := "You have already completed this quiz" }, db)) ∧
      ((∀ x ∈ db.quiz_results, ¬(x.user_id = uid ∧ x.quiz_id = result.quiz_id)) →
        save_quiz_result result uid now db =
          (.ok { id := db.next_result_id, user_id := uid, quiz_id := result.quiz_id,
                 score := result.score, correct_answers := result.correct_answers,
                 total_questions := result.total_questions, created_at := now },
           { db with
             quiz_results := db.quiz_results ++
               [{ id := db.next_result_id, user_id := uid, quiz_id := result.quiz_id,
                  score := result.score, correct_answers := result.correct_answers,
                  total_questions := result.total_questions, created_at := now }],
             next_result_id := db.next_result_id + 1 }))) ∧
    (atMostOnePerPair db.quiz_results →
      atMostOnePerPair (save_quiz_result result uid now db).2.quiz_results) := by
  refine ⟨?_, ?_, ?_⟩
  · intro h
    have hnone : db.quizzes.find? (fun q => q.id == result.quiz_id) = none := by
      rw [List.find?_eq_none]
      intro q hq
      simpa using h q hq
    unfold save_quiz_result
    rw [hnone]
  · intro ⟨q, hq, hid⟩
    have hs : (db.quizzes.find? (fun q2 => q2.id == result.quiz_id)).isSome := by
      rw [List.find?_isSome]
      exact ⟨q, hq, by simp [hid]⟩
    rcases hqf : db.quizzes.find? (fun q2 => q2.id == result.quiz_id) with _ | qf
    · rw [hqf] at hs; simp at hs
    · constructor
      · intro ⟨x, hx, hux, hqx⟩
        have hxs : (db.quiz_results.find? (fun x2 =>
            x2.user_id == uid && x2.quiz_id == result.quiz_id)).isSome := by
          rw [List.find?_isSome]
          exact ⟨x, hx, by simp [hux, hqx]⟩
        rcases hxf : db.quiz_results.find? (fun x2 =>
            x2.user_id == uid && x2.quiz_id == result.quiz_id) with _ | xf
        · rw [hxf] at hxs; simp at hxs
        · unfold save_quiz_result
          rw [hqf, hxf]
      · intro hall
        have hnone2 : db.quiz_results.find? (fun x =>
            x.user_id == uid && x.quiz_id == result.quiz_id) = none := by
          rw [List.find?_eq_none]
          intro x hx
          simp only [Bool.and_eq_true, beq_iff_eq]
          rintro ⟨h1, h2⟩
          exact hall x hx ⟨h1, h2⟩
        unfold save_quiz_result
        rw [hqf, hnone2]
  · intro hinv
    unfold save_quiz_result
    rcases hqf : db.quizzes.find? (fun q => q.id == result.quiz_id) with _ | qf
    · rw [hqf]
      exact hinv
    · rw [hqf]
      rcases hxf : db.quiz_results.find? (fun x =>
          x.user_id == uid && x.quiz_id == result.quiz_id) with _ | xf
      · rw [hxf]
        show atMostOnePerPair (db.quiz_results ++
          [{ id := db.next_result_id, user_id := uid, quiz_id := result.quiz_id,
             score := result.score, correct_answers := result.correct_answers,
             total_questions := result.total_questions, created_at := now }])
        unfold atMostOnePerPair at hinv ⊢
        rw [List.pairwise_append]
        refine ⟨hinv, by simp, ?_⟩
        intro a ha b hb
        simp only [List.mem_singleton] at hb
        subst hb
        have hna := List.find?_eq_none.mp hxf a ha
        simp only [Bool.and_eq_true, beq_iff_eq] at hna
        by_cases h1 : a.user_id = uid
        · right
          intro h2
          exact hna ⟨h1, h2⟩
        · left
          exact h1
      · rw [hxf]
        exact hinv

/-- C8: deleting an existing quiz id succeeds, removes the quiz row and
(by the schema cascade) every question row owned by it, after which
fetching that id is a 404; deleting an id matching no quiz row is a 404. -/
theorem delete_quiz_spec (quiz_id : Nat) (db : DB) :
    ((∃ q ∈ db.quizzes, q.id = quiz_id) →
      (delete_quiz quiz_id db).1 = .ok "Quiz deleted successfully" ∧
      (∀ q ∈ (delete_quiz quiz_id db).2.quizzes, q.id ≠ quiz_id) ∧
      (∀ r ∈ (delete_quiz quiz_id db).2.questions, r.quiz_id ≠ quiz_id) ∧
      get_quiz quiz_id (delete_quiz quiz_id db).2 =
        .error { status_code := 404, detail := "Quiz not found" }) ∧
    ((∀ q ∈ db.quizzes, q.id ≠ quiz_id) →
      (delete_quiz quiz_id db).1 =
        .error { status_code := 404, detail := "Quiz not found" }) := by
  constructor
  · intro ⟨q, hq, hid⟩
    have hmem : q ∈ db.quizzes.filter (fun q2 => q2.id == quiz_id) :=
      List.mem_filter.mpr ⟨hq, by simp [hid]⟩
    have hne : ¬((db.quizzes.filter (fun q2 => q2.id == quiz_id)).length = 0) := by
      intro h0
      rw [List.length_eq_zero] at h0
      rw [h0] at hmem
      simp at hmem
    have h0 : ((db.quizzes.filter (fun q2 => q2.id == quiz_id)).length = 0) = False :=
      eq_false hne
    have hdq : delete_quiz quiz_id db =
        (.ok "Quiz deleted successfully",
         { db with quizzes := db.quizzes.filter (fun q2 => !(q2.id == quiz_id)),
                   questions := cascade_delete_questions quiz_id db.questions }) := by
      unfold delete_quiz
      simp only [h0, if_false]
    rw [hdq]
    refine ⟨rfl, ?_, ?_, ?_⟩
    · intro q2 hq2
      have := List.of_mem_filter hq2
      simpa using this
    · intro r hr
      have := List.of_mem_filter hr
      simpa using this
    · unfold get_quiz
      have hfn : (db.quizzes.filter (fun q2 => !(q2.id == quiz_id))).find?
          (fun q2 => q2.id == quiz_id) = none := by
        rw [List.find?_eq_none]
        intro q2 hq2
        have := List.of_mem_filter hq2
        simpa using this
      rw [hfn]
  · intro h
    have hnil : db.quizzes.filter (fun q2 => q2.id == quiz_id) = [] := by
      rw [List.filter_eq_nil_iff]
      intro q hq
      simpa using h q hq
    have h0 : ((db.quizzes.filter (fun q2 => q2.id == quiz_id)).length = 0) = True := by
      simp [hnil]
    unfold delete_quiz
    simp only [h0, if_true]

/-- C9: whatever reordering `ORDER BY RANDOM()` produces, every category
entry of the random-by-category response holds between 1 and 3 quizzes,
each belonging to that category, each carrying exactly its question rows;
categories without quizzes never appear (entries are never empty). -/
theorem random_by_category_spec (db : DB) (rand : String → List Quiz → List Quiz)
    (hrand : ∀ c l, (rand c l).Perm l)
    (e : CategoryQuizzes) (he : e ∈ get_random_quizzes_by_category rand db) :
    e.quizzes ≠ [] ∧ e.quizzes.length ≤ 3 ∧
    ∀ qr ∈ e.quizzes, qr.category = e.category ∧
      qr.questions = db.questions.filter (fun r => r.quiz_id == qr.id) := by
  unfold get_random_quizzes_by_category at he
  rcases List.mem_filterMap.mp he with ⟨c, _, hsome⟩
  unfold categoryEntry at hsome
  by_cases hemp : (((rand c (db.quizzes.filter (fun q => q.category == c))).take 3).map
      (quizWithQuestions db)).isEmpty
  · rw [if_pos hemp] at hsome
    simp at hsome
  · rw [if_neg hemp] at hsome
    injection hsome with hsome
    subst hsome
    refine ⟨?_, ?_, ?_⟩
    · simpa [List.isEmpty_iff] using hemp
    · simp only [List.length_map, List.length_take]
      exact min_le_left 3 _
    · intro qr hqr
      rcases List.mem_map.mp hqr with ⟨q, hqmem, hq⟩
      subst hq
      have hq_in : q ∈ db.quizzes.filter (fun q2 => q2.category == c) :=
        (hrand c _).mem_iff.mp (List.mem_of_mem_take hqmem)
      have hcat : q.category = c := by
        simpa using List.of_mem_filter hq_in
      exact ⟨hcat, rfl⟩

/-- Witness for C4: in `dbUsersW`, a token issued for the registered email
at time 0 with the fixed window verifies at 364 days and is the 401 at 366
days. -/
theorem get_current_user_spec_witness :
    (∃ r, get_current_user
        (create_access_token "a@b" (some (timedeltaDays ACCESS_TOKEN_EXPIRE_DAYS)) 0 "s")
        "s" (0 + timedeltaDays 364) dbUsersW = .ok r) ∧
    get_current_user
        (create_access_token "a@b" (some (timedeltaDays ACCESS_TOKEN_EXPIRE_DAYS)) 0 "s")
        "s" (0 + timedeltaDays 366) dbUsersW = .error credentials_exception :=
  (get_current_user_spec JWToken.malformed "s" 0 dbUsersW).2.2 "a@b" 0 userW rfl

/-- Witness for C5: logging in as the registered `a@b` at time 9 returns
the 365-day token for that email and stamps `last_login := 9`. -/
theorem login_for_access_token_spec_witness :
    userW.email = "a@b" ∧
    (login_for_access_token "a@b" 9 "s" dbUsersW).1 =
      .ok { access_token := JWToken.signed
              { sub := some "a@b", exp := 9 + timedeltaDays 365 } "s",
            token_type := "bearer" } ∧
    (login_for_access_token "a@b" 9 "s" dbUsersW).2.users.find?
      (fun v => v.email == "a@b") = some { userW with last_login := some 9 } :=
  (login_for_access_token_spec "a@b" 9 "s" dbUsersW).2 userW rfl

/-- Witness for C6: registering `a@b` in the fresh database inserts the row
and issues its 365-day token. -/
theorem create_user_spec_witness :
    create_user "a@b" "u1" 3 "s" dbEmpty =
      (.ok { id := 1, email := "a@b", username := "u1",
             created_at := 3, last_login := none,
             access_token := JWToken.signed
               { sub := some "a@b", exp := 3 + timedeltaDays 365 } "s",
             token_type := "bearer" },
       { dbEmpty with
         users := [{ id := 1, email := "a@b", username := "u1",
                     created_at := 3, last_login := none }],
         next_user_id := 2 }) := by
  have h := (create_user_spec "a@b" "u1" 3 "s" dbEmpty).2 (by simp [dbEmpty])
  rw [h]
  rfl

/-- Witness for C7: recording a first result for existing quiz 1 inserts
exactly the new row with assigned id 1 and timestamp 5. -/
theorem save_quiz_result_spec_witness :
    save_quiz_result resultW 1 5 db2W =
      (.ok { id := 1, user_id := 1, quiz_id := 1, score := 80,
             correct_answers := 4, total_questions := 5, created_at := 5 },
       { db2W with
         quiz_results := [{ id := 1, user_id := 1, quiz_id := 1, score := 80,
                            correct_answers := 4, total_questions := 5,
                            created_at := 5 }],
         next_result_id := 2 }) := by
  have h := ((save_quiz_result_spec resultW 1 5 db2W).2.1
    (by decide)).2 (by simp [db2W])
  rw [h]
  rfl

/-- Witness for C8: deleting quiz 1 from `db2W` succeeds and fetching it
afterwards is the 404. -/
theorem delete_quiz_spec_witness :
    (delete_quiz 1 db2W).1 = .ok "Quiz deleted successfully" ∧
    get_quiz 1 (delete_quiz 1 db2W).2 =
      .error { status_code := 404, detail := "Quiz not found" } := by
  have h := (delete_quiz_spec 1 db2W).1 (by decide)
  exact ⟨h.1, h.2.2.2⟩

/-- Witness for C9: on `db2W` with the identity reordering, the single
category entry is nonempty, within the 3-quiz cap, and its quiz carries its
question list. -/
theorem random_by_category_spec_witness :
    (entryW.quizzes ≠ [] ∧ entryW.quizzes.length ≤ 3) ∧
    respW.category = entryW.category ∧
    respW.questions = db2W.questions.filter (fun r => r.quiz_id == respW.id) := by
  have h := random_by_category_spec db2W (fun _ l => l) (fun _ l => List.Perm.refl l)
    entryW (by decide)
  exact ⟨⟨h.1, h.2.1⟩, h.2.2 respW (by decide)⟩

/-- Witness for C10: the HTTP body of the registration above is exactly the
five declared fields, and the filtered body ignores the token field. -/
theorem create_user_response_model_witness :
    (create_user_http "a@b" "u1" 3 "s" dbEmpty).1 =
      .ok { id := 1, email := "a@b", username := "u1",
            created_at := 3, last_login := none } ∧
    user_response_fields { userCreateReturnW with
      access_token := JWToken.signed { sub := some "x", exp := 0 } "k" } =
      user_response_fields userCreateReturnW := by
  have h := create_user_response_model "a@b" "u1" 3 "s" dbEmpty
  exact ⟨by rw [h.1 (by simp [dbEmpty])]; rfl,
         h.2.2 userCreateReturnW (JWToken.signed { sub := some "x", exp := 0 } "k")⟩

/-- Witness for C2: the one-question request `qdW`, whose
`correct_answer_index` 5 is out of range for its two choices, is accepted,
stored, and read back exactly as submitted. -/
theorem create_then_get_round_trip_witness :
    get_quiz respW.id db2W = .ok respW ∧
    respW.questions.length = qdW.questions.length ∧
    respW.questions.map (fun r => r.correct_answer_index) =
      qdW.questions.map (fun q => q.correct_answer_index) ∧
    respW.questions.map (fun r => r.question_text) =
      qdW.questions.map (fun q => q.question_text) ∧
    ∃ resp2 db3, create_quiz qdW 7 (fun _ => false) dbEmpty = (.ok resp2, db3) :=
  create_then_get_round_trip qdW 7 (fun _ => false) dbEmpty respW db2W
    (by simp [dbEmpty]) (by simp [dbEmpty]) (by rfl)

end VeggieQuiz
